import Mathlib

/-!
Shallow embedding of the spatial-transcriptomics processing core of
`mcp_spatialtools/server.py` (tools `filter_quality`, `split_by_region`,
`merge_tiles`) together with proofs settling the specification claims.

Modelling conventions:
* A pandas cell is `Cell`: a missing value (`na`, pandas `NaN`), a numeric
  value (`num`, rationals stand for Python floats/ints; the claims never
  depend on float rounding), or a string (`str`).
* A `DataFrame` is a column-name list plus a list of rows (cell lists).
  `rowFun cols row c` is the value of column `c` in a row (`na` when the
  column is absent), mirroring positional column lookup.
* Filesystem state is passed in as an association list of file path to
  parsed `DataFrame`; each tool returns the list of filesystem effects it
  performs (`mkdir` / `writeFile`) together with its result, so that frame
  properties can be stated over the effect trace.  Errors mirror the Python
  exceptions: `notFound`/`invalidParam` are raised before the `try` block,
  the rest are exceptions raised inside it and re-raised wrapped in
  `IOError` by the `except` clause.
* `np.random.*` calls are modelled by explicit entropy parameters
  (`rand : Nat → Nat` for `choice`/`randint`, `randu : Nat → ℚ` for
  `rand`); the Python global RNG state becomes an explicit input.
* The environment flag `SPATIAL_DRY_RUN` is passed as the `dry_run`
  argument; the QC threshold environment defaults are passed as arguments.
-/

inductive Cell where
  | na : Cell
  | num : ℚ → Cell
  | str : String → Cell
deriving DecidableEq, Repr

inductive Effect where
  | mkdir : String → Effect
  | writeFile : String → Effect
deriving DecidableEq, Repr

inductive MCPError where
  /-- `IOError` raised by the explicit `Path.exists` checks. -/
  | notFound : MCPError
  /-- `ValueError("Invalid QC parameters")` / empty tile list / bad policy. -/
  | invalidParam : MCPError
  /-- `ValueError(f"Unsupported file format: ...")` raised inside `try`. -/
  | formatError : MCPError
  /-- `KeyError` from `data[<python bool>]` when a quality column is
  missing: `data.get('n_reads', 0)` returns the scalar `0`, the comparison
  yields a plain Python bool, and indexing a DataFrame with it raises
  `KeyError` (wrapped into `IOError` by the `except` clause). -/
  | keyError : MCPError
  /-- `ValueError` raised inside `try` (`pd.concat([])` on no objects,
  `int(np.mean([]))` on an empty region list, `pd.cut` on a column with no
  numeric value: `Bin edges must be unique`). -/
  | valueError : MCPError
deriving DecidableEq, Repr

structure DataFrame where
  cols : List String
  rows : List (List Cell)
deriving DecidableEq, Repr

/-- Value of column `c` in a row: positional lookup of the first column
named `c`, `na` when the column is absent (or the row is too short). -/
def rowFun (cols : List String) (row : List Cell) (c : String) : Cell :=
  match cols, row with
  | [], _ => Cell.na
  | _, [] => Cell.na
  | c0 :: cs, v :: vs => if c0 = c then v else rowFun cs vs c

def lookupFile (fs : List (String × DataFrame)) (p : String) : Option DataFrame :=
  (fs.find? (fun x => x.1 = p)).map (·.2)

/-- `pd.read_csv` on a path known to exist (the tools check existence
before reading; the default is never reached on those paths). -/
def readFile (fs : List (String × DataFrame)) (p : String) : DataFrame :=
  (lookupFile fs p).getD ⟨[], []⟩

/-- `DATA_DIR = Path(os.getenv("SPATIAL_DATA_DIR", "/workspace/data"))`. -/
def DATA_DIR : String := "/workspace/data"

/-- `CACHE_DIR = Path(os.getenv("SPATIAL_CACHE_DIR", "/workspace/cache"))`. -/
def CACHE_DIR : String := "/workspace/cache"

/-- `_ensure_directories()`: five `mkdir` calls, performed at the start of
every tool. -/
def ensureDirEffects : List Effect :=
  [Effect.mkdir DATA_DIR, Effect.mkdir CACHE_DIR,
   Effect.mkdir (DATA_DIR ++ "/raw"), Effect.mkdir (DATA_DIR ++ "/filtered"),
   Effect.mkdir (DATA_DIR ++ "/aligned")]

/-- `Path(p).name`: the final path component. -/
def baseName (p : String) : String :=
  (p.splitOn "/").getLastD ""

/-- `Path(p).stem`: the final component with its last extension removed. -/
def stemOf (p : String) : String :=
  let parts := (baseName p).splitOn "."
  if parts.length ≤ 1 then baseName p
  else String.intercalate "." parts.dropLast

/-- `Path(p).parent` as a plain string (no normalisation; only used to name
the `mkdir` effect on the output parent). -/
def parentOf (p : String) : String :=
  String.intercalate "/" ((p.splitOn "/").dropLast)

/-- Python `s.endswith(post)` (also the semantics of
`Path(s).suffix == post` for the dotted extensions compared here), stated
over character lists so that it computes by kernel reduction. -/
def strEndsWith (s post : String) : Bool :=
  s.data.reverse.take post.data.length == post.data.reverse

-- ===========================================================================
-- TOOL 1: filter_quality
-- ===========================================================================

/-- `data.get(c, 0) >= t` on a present numeric column, per cell: pandas
comparisons with `NaN` are `False`, so an `na` cell is dropped. -/
def cellGe (x : Cell) (t : ℚ) : Bool :=
  match x with
  | Cell.num q => t ≤ q
  | _ => false

/-- `data.get(c, 0) <= t` on a present numeric column, per cell. -/
def cellLe (x : Cell) (t : ℚ) : Bool :=
  match x with
  | Cell.num q => q ≤ t
  | _ => false

/-- One step `data[data.get(c, 0) <cmp> t]`: if column `c` exists the rows
are filtered by the per-row predicate; if it is absent, `data.get` returns
the scalar default `0`, the comparison is a plain Python bool, and
`data[<bool>]` raises `KeyError` (never a silent pass-through). -/
def filterOn (df : DataFrame) (c : String) (p : Cell → Bool) :
    Except MCPError DataFrame :=
  if c ∈ df.cols then
    Except.ok ⟨df.cols, df.rows.filter (fun r => p (rowFun df.cols r c))⟩
  else Except.error MCPError.keyError

/-- The three chained filters of `filter_quality` (server.py lines
131-139): filter by minimum reads, then by minimum genes, then by maximum
mitochondrial percentage; the first missing column aborts the chain. -/
def filterCore (df : DataFrame) (minReads minGenes : ℤ) (maxMt : ℚ) :
    Except MCPError DataFrame :=
  match filterOn df "n_reads" (fun x => cellGe x (minReads : ℚ)) with
  | Except.error e => Except.error e
  | Except.ok d1 =>
    match filterOn d1 "n_genes" (fun x => cellGe x (minGenes : ℚ)) with
    | Except.error e => Except.error e
    | Except.ok d2 => filterOn d2 "mt_percent" (fun x => cellLe x maxMt)

/-- `barcodes_after / barcodes_before if barcodes_before > 0 else 0`. -/
def filteringRate (before after : Nat) : ℚ :=
  if 0 < before then (after : ℚ) / (before : ℚ) else 0

/-- Result of `filter_quality`.  `filtered` models the table written to
`output_file`.  The reporting-only fields `genes_detected`,
`mean_reads_per_barcode`, `median_genes_per_barcode` and `mean_mt_percent`
are not referenced by any claim and are omitted from the model. -/
structure FilterResult where
  output_file : String
  barcodes_before : Nat
  barcodes_after : Nat
  filtering_rate : ℚ
  filtered : DataFrame
deriving DecidableEq, Repr

/-- The hard-coded dry-run response of `filter_quality` (lines 102-116).
`filtered` is the empty table: nothing is written in dry-run mode. -/
def mockFilterResult (outPath : String) : FilterResult :=
  ⟨outPath, 50000, 42500, 85/100, ⟨[], []⟩⟩

/-- `filter_quality` (server.py lines 50-160): ensure directories, check
the input exists, validate thresholds, create the output directory,
short-circuit on dry-run, then read, filter, write and report. -/
def filter_quality (fs : List (String × DataFrame))
    (input_file output_dir : String) (min_reads min_genes : ℤ)
    (max_mt_percent : ℚ) (dry_run : Bool) :
    List Effect × Except MCPError FilterResult :=
  let eff0 := ensureDirEffects
  if (lookupFile fs input_file).isSome = false then
    (eff0, Except.error MCPError.notFound)
  else if min_reads < 0 ∨ min_genes < 0 ∨ max_mt_percent < 0 ∨ 100 < max_mt_percent then
    (eff0, Except.error MCPError.invalidParam)
  else
    let outPath := output_dir ++ "/" ++ stemOf input_file ++ "_filtered.csv"
    let eff1 := eff0 ++ [Effect.mkdir output_dir]
    if dry_run then (eff1, Except.ok (mockFilterResult outPath))
    else if ¬ strEndsWith input_file ".csv" then
      (eff1, Except.error MCPError.formatError)
    else
      match filterCore (readFile fs input_file) min_reads min_genes max_mt_percent with
      | Except.error e => (eff1, Except.error e)
      | Except.ok d =>
        (eff1 ++ [Effect.writeFile outPath],
         Except.ok ⟨outPath, (readFile fs input_file).rows.length, d.rows.length,
           filteringRate (readFile fs input_file).rows.length d.rows.length, d⟩)

-- ===========================================================================
-- TOOL 4: merge_tiles
-- ===========================================================================

/-- The numeric entries of a list of cells (pandas numeric aggregation
skips `NaN`; string-valued columns do not occur in any claim and are
likewise skipped). -/
def numsOf (cs : List Cell) : List ℚ :=
  cs.filterMap (fun c => match c with | Cell.num q => some q | _ => none)

/-- `groupby('barcode').mean()` per attribute: the arithmetic mean of the
values present in the group, `NaN` when none is present. -/
def meanCell (cs : List Cell) : Cell :=
  if (numsOf cs).isEmpty then Cell.na
  else Cell.num ((numsOf cs).sum / ((numsOf cs).length : ℚ))

def maxQFold (acc : Option ℚ) (q : ℚ) : Option ℚ :=
  match acc with
  | none => some q
  | some m => some (max m q)

/-- `groupby('barcode').max()` per attribute: the maximum of the values
present in the group, `NaN` when none is present. -/
def maxCell (cs : List Cell) : Cell :=
  match (numsOf cs).foldl maxQFold none with
  | some m => Cell.num m
  | none => Cell.na

/-- Code-point lexicographic comparison of character lists (the string
order Python and pandas sort by), stated so that it computes by kernel
reduction. -/
def charListLe : List Char → List Char → Bool
  | [], _ => true
  | _ :: _, [] => false
  | a :: as, b :: bs =>
    if a.toNat < b.toNat then true
    else if b.toNat < a.toNat then false
    else charListLe as bs

/-- Total order on cells used to model the sorted group keys produced by
`groupby(sort=True)`; barcodes are strings in every claim. -/
def cellOrd : Cell → Cell → Bool
  | Cell.na, _ => true
  | _, Cell.na => false
  | Cell.num a, Cell.num b => a ≤ b
  | Cell.num _, Cell.str _ => true
  | Cell.str _, Cell.num _ => false
  | Cell.str a, Cell.str b => charListLe a.data b.data

def insertCell (a : Cell) : List Cell → List Cell
  | [] => [a]
  | b :: l => if cellOrd a b then a :: b :: l else b :: insertCell a l

/-- Insertion sort of the group keys (`groupby` sorts keys). -/
def sortCells (l : List Cell) : List Cell := l.foldr insertCell []

def uniqAux (seen : List Cell) : List Cell → List Cell
  | [] => []
  | a :: l => if a ∈ seen then uniqAux seen l else a :: uniqAux (a :: seen) l

/-- Distinct values in order of first appearance (`pd.unique`). -/
def uniqFirst (l : List Cell) : List Cell := uniqAux [] l

/-- `pd.concat` column union: columns in order of first appearance. -/
def concatCols (dfs : List DataFrame) : List String :=
  dfs.foldl (fun acc d => acc ++ d.cols.filter (fun c => decide (c ∉ acc))) []

/-- Reindexing of one source row to the concatenated schema: absent
columns become `NaN`. -/
def alignRow (srcCols tgt : List String) (row : List Cell) : List Cell :=
  tgt.map (fun c => rowFun srcCols row c)

/-- `pd.concat(all_data, ignore_index=True)`: tile order and within-tile
order preserved, columns aligned to the union schema. -/
def concatDFs (dfs : List DataFrame) : DataFrame :=
  let tgt := concatCols dfs
  ⟨tgt, (dfs.map (fun d => d.rows.map (alignRow d.cols tgt))).flatten⟩

/-- The rows of `df` whose `barcode` value is `k`. -/
def groupRows (df : DataFrame) (k : Cell) : List (List Cell) :=
  df.rows.filter (fun r => rowFun df.cols r "barcode" == k)

/-- The `barcode` column of `df`. -/
def barcodeVals (df : DataFrame) : List Cell :=
  df.rows.map (fun r => rowFun df.cols r "barcode")

/-- The group keys of `groupby('barcode', sort=True)`: the distinct
non-`NaN` barcodes, sorted (pandas drops `NaN` group keys). -/
def groupKeys (df : DataFrame) : List Cell :=
  sortCells (uniqFirst ((barcodeVals df).filter (fun v => v ≠ Cell.na)))

/-- Every column except the grouping column. -/
def otherCols (df : DataFrame) : List String :=
  df.cols.filter (fun c => decide (c ≠ "barcode"))

/-- The values of column `c` across the group of barcode `k`. -/
def groupVals (df : DataFrame) (k : Cell) (c : String) : List Cell :=
  (groupRows df k).map (fun r => rowFun df.cols r c)

/-- `merged_data.groupby('barcode').<agg>().reset_index()`: one output row
per distinct non-`NaN` barcode, the grouping column first, every other
column aggregated over the barcode's group. -/
def groupByBarcode (agg : List Cell → Cell) (df : DataFrame) : DataFrame :=
  ⟨"barcode" :: otherCols df,
   (groupKeys df).map (fun k =>
     k :: (otherCols df).map (fun c => agg (groupVals df k c)))⟩

/-- `drop_duplicates(subset='barcode', keep='first')`: keep the earliest
row for each barcode value in concatenation order. -/
def dropDupAux (cols : List String) (seen : List Cell) :
    List (List Cell) → List (List Cell)
  | [] => []
  | r :: rs =>
    let b := rowFun cols r "barcode"
    if b ∈ seen then dropDupAux cols seen rs
    else r :: dropDupAux cols (b :: seen) rs

/-- Collision resolution (server.py lines 500-508): only applied when a
`barcode` column exists. -/
def resolveOverlap (policy : String) (df : DataFrame) : DataFrame :=
  if "barcode" ∈ df.cols then
    if policy = "first" then ⟨df.cols, dropDupAux df.cols [] df.rows⟩
    else if policy = "average" then groupByBarcode meanCell df
    else if policy = "max" then groupByBarcode maxCell df
    else df
  else df

/-- The tiles actually read (lines 490-494): only paths whose name ends in
`.csv` are read and appended; every other tile is skipped silently. -/
def loadTiles (fs : List (String × DataFrame)) (ts : List String) :
    List DataFrame :=
  (ts.filter (fun t => strEndsWith t ".csv")).filterMap (lookupFile fs)

structure MergeResult where
  output_file : String
  tiles_merged : Nat
  total_barcodes : Nat
  overlapping_barcodes : ℤ
  overlap_percent : ℚ
  /-- The merged table written to `output_file`. -/
  merged : DataFrame
deriving DecidableEq, Repr

/-- The hard-coded dry-run response of `merge_tiles` (lines 474-484). -/
def mockMergeResult (outPath : String) (n : Nat) : MergeResult :=
  ⟨outPath, n, 85000, 5000, 59/10, ⟨[], []⟩⟩

/-- `len(all_data[0]) + len(all_data[1]) - len(merged_data) if
len(all_data) >= 2 else 0` — only the first two *loaded* tiles enter the
overlap statistic. -/
def overlapCount (loaded : List DataFrame) (total : Nat) : ℤ :=
  match loaded with
  | a :: b :: _ => (a.rows.length : ℤ) + (b.rows.length : ℤ) - (total : ℤ)
  | _ => 0

/-- `overlap_percent` with the same first-two-tiles numerator, guarded by
`len(merged_data) > 0`. -/
def overlapPercent (loaded : List DataFrame) (total : Nat) : ℚ :=
  match loaded with
  | a :: b :: _ =>
    if 0 < total then
      (((a.rows.length : ℚ) + (b.rows.length : ℚ) - (total : ℚ)) / (total : ℚ)) * 100
    else 0
  | _ => 0

/-- `merge_tiles` (server.py lines 423-524). -/
def merge_tiles (fs : List (String × DataFrame)) (tile_files : List String)
    (output_file : String) (overlap_resolution : String) (dry_run : Bool) :
    List Effect × Except MCPError MergeResult :=
  let eff0 := ensureDirEffects
  if tile_files.isEmpty then (eff0, Except.error MCPError.invalidParam)
  else if ¬ (overlap_resolution = "average" ∨ overlap_resolution = "max" ∨
      overlap_resolution = "first") then
    (eff0, Except.error MCPError.invalidParam)
  else if ¬ tile_files.all (fun t => (lookupFile fs t).isSome) then
    (eff0, Except.error MCPError.notFound)
  else
    let eff1 := eff0 ++ [Effect.mkdir (parentOf output_file)]
    if dry_run then (eff1, Except.ok (mockMergeResult output_file tile_files.length))
    else
      let loaded := loadTiles fs tile_files
      if loaded.isEmpty then (eff1, Except.error MCPError.valueError)
      else
        let merged := resolveOverlap overlap_resolution (concatDFs loaded)
        (eff1 ++ [Effect.writeFile output_file],
         Except.ok ⟨output_file, tile_files.length, merged.rows.length,
           overlapCount loaded merged.rows.length,
           overlapPercent loaded merged.rows.length, merged⟩)

/-- The value the merge result assigns to attribute `c` of barcode `k`
(`na` when the barcode is absent). -/
def mergedLookup (df : DataFrame) (k : Cell) (c : String) : Cell :=
  match df.rows.find? (fun r => rowFun df.cols r "barcode" == k) with
  | some r => rowFun df.cols r c
  | none => Cell.na

/-- The merged table of a `merge_tiles` call (empty table on error). -/
def mergeTable (p : List Effect × Except MCPError MergeResult) : DataFrame :=
  match p.2 with
  | Except.ok r => r.merged
  | Except.error _ => ⟨[], []⟩

-- ===========================================================================
-- TOOL 2: split_by_region
-- ===========================================================================

/-- `data['region'] == v` per cell: pandas equality with `NaN` on either
side is `False` (in particular a `NaN` region label never matches its own
group file). -/
def cellEqPandas (a b : Cell) : Bool :=
  match a, b with
  | Cell.na, _ => false
  | _, Cell.na => false
  | a, b => a == b

/-- `str(region_name)` as used to build `f"{region_name}.csv"`; `str(nan)`
is `"nan"`.  (Numeric labels never occur in the claims; their exact Python
float formatting is not reproduced.) -/
def cellName : Cell → String
  | Cell.str s => s
  | Cell.na => "nan"
  | Cell.num q => toString q.num ++ "/" ++ toString q.den

/-- `[f"region_{i}" for i in range(num_regions)]`. -/
def regionLabels (k : Nat) : List String :=
  (List.range k).map (fun i => "region_" ++ toString i)

/-- The bin edges `pd.cut(x, bins=k)` computes (exact rational arithmetic
in place of float): `np.linspace(mn, mx, k+1)`, with both ends nudged by
0.1% when `mn == mx`, and the first edge lowered by 0.1% of the range
otherwise (`right=True`). -/
def cutEdges (mn mx : ℚ) (k : Nat) : List ℚ :=
  if mn = mx then
    let mn' := mn - (if mn = 0 then 1/1000 else |mn| / 1000)
    let mx' := mx + (if mx = 0 then 1/1000 else |mx| / 1000)
    (List.range (k + 1)).map (fun i => mn' + (mx' - mn') * i / k)
  else
    let adj := (mx - mn) / 1000
    (List.range (k + 1)).map (fun i =>
      if i = 0 then mn - adj else mn + (mx - mn) * i / k)

def binIdxAux (v : ℚ) : List ℚ → Nat → Option Nat
  | e2 :: rest, i => if v ≤ e2 then some i else binIdxAux v rest (i + 1)
  | [], _ => none

/-- The bin of `v` among increasing `edges`: the `i` with
`edges[i] < v ≤ edges[i+1]` (`none` outside the covered range). -/
def binIdx (edges : List ℚ) (v : ℚ) : Option Nat :=
  match edges with
  | [] => none
  | e0 :: rest => if v ≤ e0 then none else binIdxAux v rest 0

/-- `pd.cut(xs, bins=k, labels=labels)`: `NaN` stays `NaN`; every numeric
value is assigned the label of its bin.  When no numeric value is present
(the column is empty or all-`NaN`), `x.min()` and `x.max()` are `NaN`, the
`mn == mx` check is false (`NaN == NaN`), `np.linspace(NaN, NaN, k+1)`
produces identical `NaN` edges and pandas raises
`ValueError: Bin edges must be unique` (wrapped into `IOError` by the
caller's `except` clause). -/
def cutAssign (xs : List Cell) (k : Nat) (labels : List String) :
    Except MCPError (List Cell) :=
  match numsOf xs with
  | [] => Except.error MCPError.valueError
  | q0 :: qs =>
    let mn := qs.foldl min q0
    let mx := qs.foldl max q0
    let edges := cutEdges mn mx k
    Except.ok (xs.map (fun c =>
      match c with
      | Cell.num v =>
        match binIdx edges v with
        | some i => Cell.str (labels.getD i "")
        | none => Cell.na
      | _ => Cell.na))

/-- Region assignment (server.py lines 243-254).  A pre-existing `region`
column is kept; otherwise with a non-empty `regions` list (`if regions:`
is false for `None` and for `[]`) each row gets `np.random.choice(regions)`
— one RNG draw per row; otherwise grid fallback:
`pd.cut(data.get('x_coord', np.random.rand(len(data))), bins=4, ...)`,
whose `ValueError` (no numeric value to bin) propagates out of the try
block. -/
def assignRegions (df : DataFrame) (regions : Option (List String))
    (rand : Nat → Nat) (randu : Nat → ℚ) : Except MCPError DataFrame :=
  if "region" ∈ df.cols then Except.ok df
  else
    let rs := regions.getD []
    if ¬ rs.isEmpty then
      Except.ok ⟨df.cols ++ ["region"],
        df.rows.enum.map (fun p => p.2 ++ [Cell.str (rs.getD (rand p.1 % rs.length) "")])⟩
    else
      let xs := if "x_coord" ∈ df.cols
        then df.rows.map (fun r => rowFun df.cols r "x_coord")
        else (List.range df.rows.length).map (fun i => Cell.num (randu i))
      match cutAssign xs 4 (regionLabels 4) with
      | Except.error e => Except.error e
      | Except.ok labs =>
        Except.ok ⟨df.cols ++ ["region"],
          List.zipWith (fun r lab => r ++ [lab]) df.rows labs⟩

structure RegionInfo where
  name : String
  file : String
  barcode_count : Nat
deriving DecidableEq, Repr

structure SplitResult where
  regions : List RegionInfo
  total_regions : Nat
  /-- `int(np.mean(region_stats))`; `int()` truncation equals `⌊·⌋` on the
  non-negative means that occur. -/
  mean_count : ℤ
  min_count : Nat
  max_count : Nat
deriving DecidableEq, Repr

/-- The dry-run response of `split_by_region` (lines 213-232):
`regions or ["region_1","region_2","region_3"]` with one
`np.random.randint(5000, 15000)` draw per region. -/
def mockSplitResult (output_dir : String) (regions : Option (List String))
    (rand : Nat → Nat) : SplitResult :=
  let rs := regions.getD []
  let mock := if rs.isEmpty then ["region_1", "region_2", "region_3"] else rs
  ⟨mock.enum.map (fun p =>
      ⟨p.2, output_dir ++ "/" ++ p.2 ++ ".csv", 5000 + rand p.1 % 10000⟩),
   mock.length, 10000, 5000, 15000⟩

/-- The try-block body of `split_by_region` (lines 235-280): assign
regions, split by the distinct region values (writing one file per value),
and report per-region statistics.  The returned effect list holds the
region-file writes. -/
def splitCore (df : DataFrame) (output_dir : String)
    (regions : Option (List String)) (rand : Nat → Nat) (randu : Nat → ℚ) :
    List Effect × Except MCPError SplitResult :=
  match assignRegions df regions rand randu with
  | Except.error e => ([], Except.error e)
  | Except.ok df2 =>
    let vals := df2.rows.map (fun r => rowFun df2.cols r "region")
    let uniq := uniqFirst vals
    let infos : List RegionInfo := uniq.map (fun v =>
      ⟨cellName v, output_dir ++ "/" ++ cellName v ++ ".csv",
       (df2.rows.filter (fun r => cellEqPandas (rowFun df2.cols r "region") v)).length⟩)
    let wr := uniq.map (fun v => Effect.writeFile (output_dir ++ "/" ++ cellName v ++ ".csv"))
    match infos.map (fun i => i.barcode_count) with
    | [] => (wr, Except.error MCPError.valueError)
    | s0 :: ss =>
      let stats : List ℕ := s0 :: ss
      let meanStat : ℤ := ⌊(stats.map (fun n => (n : ℚ))).sum / ((stats.length : ℕ) : ℚ)⌋
      (wr, Except.ok ⟨infos, infos.length, meanStat,
        ss.foldl min s0, ss.foldl max s0⟩)

/-- `split_by_region` (server.py lines 168-283).  `coordinate_file` is
accepted by the tool but never used by its body. -/
def split_by_region (fs : List (String × DataFrame))
    (input_file output_dir : String) (regions : Option (List String))
    (coord_file : Option String) (rand : Nat → Nat) (randu : Nat → ℚ)
    (dry_run : Bool) : List Effect × Except MCPError SplitResult :=
  let _ := coord_file
  let eff0 := ensureDirEffects
  if (lookupFile fs input_file).isSome = false then
    (eff0, Except.error MCPError.notFound)
  else
    let eff1 := eff0 ++ [Effect.mkdir output_dir]
    if dry_run then (eff1, Except.ok (mockSplitResult output_dir regions rand))
    else if ¬ strEndsWith input_file ".csv" then
      (eff1, Except.error MCPError.formatError)
    else
      let r := splitCore (readFile fs input_file) output_dir regions rand randu
      (eff1 ++ r.1, r.2)

-- ===========================================================================
-- Spec-side definition and concrete fixtures
-- ===========================================================================

/-- Cells that carry a numeric value or are missing (the domain of the
spec sentences about numeric attributes). -/
def isNumOrNa : Cell → Bool
  | Cell.str _ => false
  | _ => true

/-- Written from the spec's words (§4.4, `average` policy, for a barcode
with exactly two occurrences): the arithmetic mean across the occurrences,
defined only over attributes present in at least one occurrence — missing
values are excluded from the mean, not treated as zero. -/
def specPairAverage : Cell → Cell → Cell
  | Cell.num a, Cell.num b => Cell.num ((a + b) / 2)
  | Cell.num a, Cell.na => Cell.num a
  | Cell.na, Cell.num b => Cell.num b
  | _, _ => Cell.na

/-- A one-row, one-column table used by several concrete scenarios. -/
def dfTiny : DataFrame := ⟨["barcode"], [[Cell.str "X"]]⟩

/-- Tile 1 of the documented end-to-end scenario: 10 barcodes `a0..a9`. -/
def tile1C1 : DataFrame :=
  ⟨["barcode"],
   [[Cell.str "a0"], [Cell.str "a1"], [Cell.str "a2"], [Cell.str "a3"],
    [Cell.str "a4"], [Cell.str "a5"], [Cell.str "a6"], [Cell.str "a7"],
    [Cell.str "a8"], [Cell.str "a9"]]⟩

/-- Tile 2: 10 barcodes, of which `a0,a1,a2` are shared with tile 1. -/
def tile2C1 : DataFrame :=
  ⟨["barcode"],
   [[Cell.str "a0"], [Cell.str "a1"], [Cell.str "a2"], [Cell.str "b0"],
    [Cell.str "b1"], [Cell.str "b2"], [Cell.str "b3"], [Cell.str "b4"],
    [Cell.str "b5"], [Cell.str "b6"]]⟩

/-- Tile 3: 5 fresh barcodes `c0..c4`. -/
def tile3C1 : DataFrame :=
  ⟨["barcode"],
   [[Cell.str "c0"], [Cell.str "c1"], [Cell.str "c2"], [Cell.str "c3"],
    [Cell.str "c4"]]⟩

def fsC1 : List (String × DataFrame) :=
  [("t1.csv", tile1C1), ("t2.csv", tile2C1), ("t3.csv", tile3C1)]

/-- Single-row tile with `read_count = 100` for barcode `X`. -/
def tileX100 : DataFrame :=
  ⟨["barcode", "read_count"], [[Cell.str "X", Cell.num 100]]⟩

/-- Single-row tile with `read_count = 300` for barcode `X`. -/
def tileX300 : DataFrame :=
  ⟨["barcode", "read_count"], [[Cell.str "X", Cell.num 300]]⟩

def fsPair : List (String × DataFrame) :=
  [("x.csv", tileX100), ("y.csv", tileX300)]

/-- Input whose `x_coord` is missing (`NaN`) for its single record. -/
def dfNanX : DataFrame := ⟨["barcode", "x_coord"], [[Cell.str "X", Cell.na]]⟩

/-- Input that already carries a `region` column with two labels. -/
def dfPreReg : DataFrame :=
  ⟨["barcode", "region"],
   [[Cell.str "A", Cell.str "t"], [Cell.str "B", Cell.str "s"]]⟩

/-- Input with a pre-assigned `region` column whose second record's label
is missing (`NaN`). -/
def dfNanReg : DataFrame :=
  ⟨["barcode", "region"],
   [[Cell.str "A", Cell.str "t"], [Cell.str "B", Cell.na]]⟩

/-- A table with `n_genes` and `mt_percent` but no `n_reads` column. -/
def dfNoReads : DataFrame :=
  ⟨["barcode", "n_genes", "mt_percent"],
   [[Cell.str "X", Cell.num 500, Cell.num 5]]⟩

/-- A table with all three quality columns. -/
def dfQC : DataFrame :=
  ⟨["barcode", "n_reads", "n_genes", "mt_percent"],
   [[Cell.str "A", Cell.num 1500, Cell.num 500, Cell.num 5],
    [Cell.str "B", Cell.num 800, Cell.num 300, Cell.num 2],
    [Cell.str "C", Cell.num 2000, Cell.num 100, Cell.num 30]]⟩

-- ===========================================================================
-- Basic lemmas
-- ===========================================================================

theorem rowFun_eq_na_of_not_mem (cols : List String) (row : List Cell)
    (c : String) (h : c ∉ cols) : rowFun cols row c = Cell.na := by
  induction cols generalizing row with
  | nil => cases row <;> rfl
  | cons c0 cs ih =>
    cases row with
    | nil => rfl
    | cons v vs =>
      simp only [rowFun]
      rw [if_neg (by intro hc; exact h (hc ▸ List.mem_cons_self c0 cs))]
      exact ih vs (fun hm => h (List.mem_cons_of_mem _ hm))

theorem rowFun_map_self (l : List String) (f : String → Cell) (c : String) :
    rowFun l (l.map f) c = if c ∈ l then f c else Cell.na := by
  induction l with
  | nil => simp [rowFun]
  | cons c0 cs ih =>
    simp only [List.map_cons, rowFun]
    by_cases h0 : c0 = c
    · subst h0
      simp
    · rw [if_neg h0, ih]
      by_cases hm : c ∈ cs
      · rw [if_pos hm, if_pos (List.mem_cons_of_mem _ hm)]
      · rw [if_neg hm, if_neg ?_]
        intro hc
        rw [List.mem_cons] at hc
        rcases hc with rfl | hc
        · exact h0 rfl
        · exact hm hc

theorem mem_concatCols_foldl (dfs : List DataFrame) (acc : List String)
    (c : String) :
    c ∈ dfs.foldl (fun acc d => acc ++ d.cols.filter (fun x => decide (x ∉ acc))) acc ↔
      c ∈ acc ∨ ∃ d ∈ dfs, c ∈ d.cols := by
  induction dfs generalizing acc with
  | nil => simp
  | cons d ds ih =>
    rw [List.foldl_cons, ih]
    constructor
    · rintro (h | ⟨e, he, hc⟩)
      · rw [List.mem_append] at h
        rcases h with h | h
        · exact Or.inl h
        · rw [List.mem_filter] at h
          exact Or.inr ⟨d, List.mem_cons_self d ds, h.1⟩
      · exact Or.inr ⟨e, List.mem_cons_of_mem d he, hc⟩
    · rintro (h | ⟨e, he, hc⟩)
      · exact Or.inl (List.mem_append.mpr (Or.inl h))
      · rw [List.mem_cons] at he
        rcases he with rfl | he
        · by_cases ha : c ∈ acc
          · exact Or.inl (List.mem_append.mpr (Or.inl ha))
          · refine Or.inl (List.mem_append.mpr (Or.inr ?_))
            rw [List.mem_filter]
            exact ⟨hc, by simpa using ha⟩
        · exact Or.inr ⟨e, he, hc⟩

theorem mem_concatCols (dfs : List DataFrame) (c : String) :
    c ∈ concatCols dfs ↔ ∃ d ∈ dfs, c ∈ d.cols := by
  unfold concatCols
  rw [mem_concatCols_foldl]
  simp

theorem cols_subset_concatCols (dfs : List DataFrame) (d : DataFrame)
    (hd : d ∈ dfs) : d.cols ⊆ concatCols dfs := by
  intro c hc
  exact (mem_concatCols dfs c).mpr ⟨d, hd, hc⟩

theorem rowFun_alignRow (src tgt : List String) (row : List Cell)
    (c : String) (hsub : src ⊆ tgt) :
    rowFun tgt (alignRow src tgt row) c = rowFun src row c := by
  unfold alignRow
  rw [rowFun_map_self]
  by_cases h : c ∈ tgt
  · simp [h]
  · rw [if_neg h, rowFun_eq_na_of_not_mem src row c (fun hm => h (hsub hm))]

theorem uniqAux_mem (l : List Cell) (seen : List Cell) (a : Cell) :
    a ∈ uniqAux seen l ↔ a ∈ l ∧ a ∉ seen := by
  induction l generalizing seen with
  | nil => simp [uniqAux]
  | cons b l ih =>
    rw [uniqAux]
    by_cases hb : b ∈ seen
    · rw [if_pos hb, ih]
      constructor
      · rintro ⟨h, hn⟩
        exact ⟨List.mem_cons_of_mem _ h, hn⟩
      · rintro ⟨h, hn⟩
        rcases List.mem_cons.mp h with rfl | h
        · exact absurd hb hn
        · exact ⟨h, hn⟩
    · rw [if_neg hb, List.mem_cons, ih]
      constructor
      · rintro (rfl | ⟨h, hn⟩)
        · exact ⟨List.mem_cons_self _ _, hb⟩
        · exact ⟨List.mem_cons_of_mem _ h,
            fun hs => hn (List.mem_cons_of_mem _ hs)⟩
      · rintro ⟨h, hn⟩
        rcases List.mem_cons.mp h with rfl | h
        · exact Or.inl rfl
        · by_cases hab : a = b
          · exact Or.inl hab
          · refine Or.inr ⟨h, fun hmem => ?_⟩
            rcases List.mem_cons.mp hmem with h1 | h1
            · exact hab h1
            · exact hn h1

theorem uniqFirst_mem (l : List Cell) (a : Cell) :
    a ∈ uniqFirst l ↔ a ∈ l := by
  unfold uniqFirst
  rw [uniqAux_mem]
  simp

theorem insertCell_perm (a : Cell) (l : List Cell) :
    (insertCell a l).Perm (a :: l) := by
  induction l with
  | nil => exact List.Perm.refl _
  | cons b bs ih =>
    rw [insertCell]
    by_cases h : cellOrd a b
    · rw [if_pos h]
    · rw [if_neg h]
      exact (List.Perm.cons b ih).trans (List.Perm.swap a b bs)

theorem sortCells_perm (l : List Cell) : (sortCells l).Perm l := by
  induction l with
  | nil => exact List.Perm.refl _
  | cons a l ih =>
    exact (insertCell_perm a (sortCells l)).trans (List.Perm.cons a ih)

theorem sortCells_mem (l : List Cell) (a : Cell) :
    a ∈ sortCells l ↔ a ∈ l :=
  (sortCells_perm l).mem_iff

theorem numsOf_perm {l1 l2 : List Cell} (h : l1.Perm l2) :
    (numsOf l1).Perm (numsOf l2) :=
  h.filterMap _

theorem meanCell_perm {l1 l2 : List Cell} (h : l1.Perm l2) :
    meanCell l1 = meanCell l2 := by
  unfold meanCell
  have hp := numsOf_perm h
  by_cases he : numsOf l1 = []
  · have he2 : numsOf l2 = [] := List.Perm.eq_nil (he ▸ hp).symm
    rw [he, he2]
  · have hne2 : numsOf l2 ≠ [] := by
      intro h2
      exact he (List.Perm.eq_nil (h2 ▸ hp))
    rw [if_neg (by simpa [List.isEmpty_iff] using he),
      if_neg (by simpa [List.isEmpty_iff] using hne2), hp.sum_eq, hp.length_eq]

theorem maxCell_perm {l1 l2 : List Cell} (h : l1.Perm l2) :
    maxCell l1 = maxCell l2 := by
  unfold maxCell
  have hp := numsOf_perm h
  have hfold : (numsOf l1).foldl maxQFold none = (numsOf l2).foldl maxQFold none := by
    refine @List.Perm.foldl_eq _ _ maxQFold _ _ ⟨?_⟩ hp none
    intro acc p q
    cases acc with
    | none => simp [maxQFold, max_comm]
    | some m => simp [maxQFold, sup_right_comm]
  rw [hfold]

-- ===========================================================================
-- Lookup characterisation of the groupby-based resolution
-- ===========================================================================

theorem find?_beq_self (l : List Cell) (k : Cell) :
    l.find? (fun x => x == k) = if k ∈ l then some k else none := by
  induction l with
  | nil => simp
  | cons a l ih =>
    rw [List.find?_cons]
    by_cases hak : a = k
    · subst hak
      simp
    · have : (a == k) = false := by simpa using hak
      rw [this, ih]
      by_cases hm : k ∈ l
      · rw [if_pos hm, if_pos (List.mem_cons_of_mem _ hm)]
      · rw [if_neg hm, if_neg ?_]
        intro hc
        rcases List.mem_cons.mp hc with rfl | hc
        · exact hak rfl
        · exact hm hc

theorem rowFun_head_barcode (other : List String) (k : Cell)
    (vals : List Cell) :
    rowFun ("barcode" :: other) (k :: vals) "barcode" = k := by
  simp [rowFun]

theorem rowFun_head_other (other : List String) (k : Cell)
    (f : String → Cell) (c : String) (hc : c ≠ "barcode") :
    rowFun ("barcode" :: other) (k :: other.map f) c =
      if c ∈ other then f c else Cell.na := by
  simp only [rowFun]
  rw [if_neg (fun h => hc h.symm), rowFun_map_self]

theorem mergedLookup_groupBy (agg : List Cell → Cell) (df : DataFrame)
    (k : Cell) (c : String) :
    mergedLookup (groupByBarcode agg df) k c =
      if k ∈ groupKeys df then
        (if c = "barcode" then k
         else if c ∈ otherCols df then agg (groupVals df k c) else Cell.na)
      else Cell.na := by
  unfold mergedLookup groupByBarcode
  rw [List.find?_map]
  have hcomp :
      ((fun r => rowFun ("barcode" :: otherCols df) r "barcode" == k) ∘
        (fun k' => k' :: (otherCols df).map (fun c => agg (groupVals df k' c)))) =
      fun k' => k' == k := by
    funext k'
    simp [Function.comp, rowFun_head_barcode]
  rw [hcomp, find?_beq_self]
  by_cases hk : k ∈ groupKeys df
  · rw [if_pos hk, if_pos hk]
    by_cases hc : c = "barcode"
    · subst hc
      rw [if_pos rfl]
      show rowFun ("barcode" :: otherCols df)
        (k :: (otherCols df).map (fun c => agg (groupVals df k c))) "barcode" = k
      rw [rowFun_head_barcode]
    · rw [if_neg hc]
      show rowFun ("barcode" :: otherCols df)
        (k :: (otherCols df).map (fun c => agg (groupVals df k c))) c = _
      rw [rowFun_head_other _ _ _ _ hc]
  · rw [if_neg hk, if_neg hk]
    rfl

-- ===========================================================================
-- Column semantics of pd.concat
-- ===========================================================================

theorem concatDFs_cols (dfs : List DataFrame) :
    (concatDFs dfs).cols = concatCols dfs := rfl

theorem colVals_concat (dfs : List DataFrame) (c : String) :
    (concatDFs dfs).rows.map (fun r => rowFun (concatDFs dfs).cols r c) =
      (dfs.map (fun d => d.rows.map (fun r => rowFun d.cols r c))).flatten := by
  show ((dfs.map (fun d => d.rows.map (alignRow d.cols (concatCols dfs)))).flatten).map
      (fun r => rowFun (concatCols dfs) r c) = _
  rw [List.map_flatten, List.map_map]
  congr 1
  refine List.map_congr_left (fun d hd => ?_)
  simp only [Function.comp, List.map_map]
  refine List.map_congr_left (fun r _ => ?_)
  exact rowFun_alignRow d.cols (concatCols dfs) r c
    (cols_subset_concatCols dfs d hd)

theorem barcodeVals_concat (dfs : List DataFrame) :
    barcodeVals (concatDFs dfs) =
      (dfs.map (fun d => d.rows.map (fun r => rowFun d.cols r "barcode"))).flatten :=
  colVals_concat dfs "barcode"

theorem groupVals_concat (dfs : List DataFrame) (k : Cell) (c : String) :
    groupVals (concatDFs dfs) k c =
      (dfs.map (fun d =>
        (d.rows.filter (fun r => rowFun d.cols r "barcode" == k)).map
          (fun r => rowFun d.cols r c))).flatten := by
  unfold groupVals groupRows
  show (((dfs.map (fun d => d.rows.map (alignRow d.cols (concatCols dfs)))).flatten).filter
      (fun r => rowFun (concatCols dfs) r "barcode" == k)).map
      (fun r => rowFun (concatCols dfs) r c) = _
  rw [List.filter_flatten, List.map_flatten, List.map_map, List.map_map]
  congr 1
  refine List.map_congr_left (fun d hd => ?_)
  have hsub := cols_subset_concatCols dfs d hd
  simp only [Function.comp]
  rw [List.filter_map]
  have hpred : ((fun r => rowFun (concatCols dfs) r "barcode" == k) ∘
      alignRow d.cols (concatCols dfs)) =
      fun r => rowFun d.cols r "barcode" == k := by
    funext r
    simp [Function.comp, rowFun_alignRow d.cols (concatCols dfs) r "barcode" hsub]
  rw [hpred, List.map_map]
  refine List.map_congr_left (fun r _ => ?_)
  simp [Function.comp, rowFun_alignRow d.cols (concatCols dfs) r c hsub]

theorem mem_groupKeys (df : DataFrame) (k : Cell) :
    k ∈ groupKeys df ↔ k ∈ barcodeVals df ∧ k ≠ Cell.na := by
  unfold groupKeys
  rw [sortCells_mem, uniqFirst_mem, List.mem_filter]
  simp

theorem mem_otherCols (df : DataFrame) (c : String) :
    c ∈ otherCols df ↔ c ∈ df.cols ∧ c ≠ "barcode" := by
  unfold otherCols
  rw [List.mem_filter]
  simp

-- ===========================================================================
-- Order invariance of grouped resolution
-- ===========================================================================

theorem mergedLookup_groupBy_concat_perm (agg : List Cell → Cell)
    (hagg : ∀ {l1 l2 : List Cell}, l1.Perm l2 → agg l1 = agg l2)
    (dfs1 dfs2 : List DataFrame) (hperm : dfs1.Perm dfs2) (k : Cell)
    (c : String) :
    mergedLookup (groupByBarcode agg (concatDFs dfs1)) k c =
      mergedLookup (groupByBarcode agg (concatDFs dfs2)) k c := by
  rw [mergedLookup_groupBy, mergedLookup_groupBy]
  have hb : (barcodeVals (concatDFs dfs1)).Perm (barcodeVals (concatDFs dfs2)) := by
    rw [barcodeVals_concat, barcodeVals_concat]
    exact (hperm.map _).flatten
  have hkeys : k ∈ groupKeys (concatDFs dfs1) ↔ k ∈ groupKeys (concatDFs dfs2) := by
    rw [mem_groupKeys, mem_groupKeys, hb.mem_iff]
  have hcols : c ∈ otherCols (concatDFs dfs1) ↔ c ∈ otherCols (concatDFs dfs2) := by
    rw [mem_otherCols, mem_otherCols, concatDFs_cols, concatDFs_cols,
      mem_concatCols, mem_concatCols]
    constructor
    · rintro ⟨⟨d, hd, hc⟩, hne⟩
      exact ⟨⟨d, hperm.mem_iff.mp hd, hc⟩, hne⟩
    · rintro ⟨⟨d, hd, hc⟩, hne⟩
      exact ⟨⟨d, hperm.mem_iff.mpr hd, hc⟩, hne⟩
  have hvals : agg (groupVals (concatDFs dfs1) k c) =
      agg (groupVals (concatDFs dfs2) k c) := by
    refine hagg ?_
    rw [groupVals_concat, groupVals_concat]
    exact (hperm.map _).flatten
  by_cases hk : k ∈ groupKeys (concatDFs dfs1)
  · rw [if_pos hk, if_pos (hkeys.mp hk)]
    by_cases hc : c = "barcode"
    · rw [if_pos hc, if_pos hc]
    · rw [if_neg hc, if_neg hc]
      by_cases hco : c ∈ otherCols (concatDFs dfs1)
      · rw [if_pos hco, if_pos (hcols.mp hco), hvals]
      · rw [if_neg hco, if_neg (fun h => hco (hcols.mpr h))]
  · rw [if_neg hk, if_neg (fun h => hk (hkeys.mpr h))]

/-- Extracting the merged table of a successful (non-dry) `merge_tiles`
call. -/
theorem mergeTable_of_isOk (fs : List (String × DataFrame))
    (ts : List String) (out pol : String)
    (h : ((merge_tiles fs ts out pol false).2).isOk = true) :
    mergeTable (merge_tiles fs ts out pol false) =
      resolveOverlap pol (concatDFs (loadTiles fs ts)) := by
  unfold mergeTable
  unfold merge_tiles at h ⊢
  simp only [] at h ⊢
  split_ifs at h ⊢ <;> simp_all [Except.isOk, Except.toBool]

/-- The total-barcode count of a successful (non-dry) `merge_tiles`. -/
theorem merge_tiles_ok_shape (fs : List (String × DataFrame))
    (ts : List String) (out pol : String) (res : MergeResult)
    (h : (merge_tiles fs ts out pol false).2 = Except.ok res) :
    res = ⟨out, ts.length,
      (resolveOverlap pol (concatDFs (loadTiles fs ts))).rows.length,
      overlapCount (loadTiles fs ts)
        (resolveOverlap pol (concatDFs (loadTiles fs ts))).rows.length,
      overlapPercent (loadTiles fs ts)
        (resolveOverlap pol (concatDFs (loadTiles fs ts))).rows.length,
      resolveOverlap pol (concatDFs (loadTiles fs ts))⟩ := by
  unfold merge_tiles at h
  simp only [] at h
  split_ifs at h <;> simp_all

theorem resolveOverlap_average (L : List DataFrame)
    (hL : "barcode" ∈ concatCols L) :
    resolveOverlap "average" (concatDFs L) = groupByBarcode meanCell (concatDFs L) := by
  unfold resolveOverlap
  rw [if_pos (by rw [concatDFs_cols]; exact hL), if_neg (by decide), if_pos rfl]

theorem resolveOverlap_max (L : List DataFrame)
    (hL : "barcode" ∈ concatCols L) :
    resolveOverlap "max" (concatDFs L) = groupByBarcode maxCell (concatDFs L) := by
  unfold resolveOverlap
  rw [if_pos (by rw [concatDFs_cols]; exact hL), if_neg (by decide),
    if_neg (by decide), if_pos rfl]

/-- C6: reordering the tile list never changes the numeric value resolved
for any barcode under the `average` and `max` policies, but under `first`
there is a tile list (two single-row tiles sharing barcode `X` with
`read_count` 100 and 300) whose reordering changes which occurrence is
kept. -/
theorem C6_merge_commutative_average_max_not_first :
    (∀ (fs : List (String × DataFrame)) (ts1 ts2 : List String)
       (out1 out2 pol : String),
       ts1.Perm ts2 →
       (pol = "average" ∨ pol = "max") →
       ((merge_tiles fs ts1 out1 pol false).2).isOk = true →
       ((merge_tiles fs ts2 out2 pol false).2).isOk = true →
       "barcode" ∈ concatCols (loadTiles fs ts1) →
       ∀ (k : Cell) (c : String),
         mergedLookup (mergeTable (merge_tiles fs ts1 out1 pol false)) k c =
           mergedLookup (mergeTable (merge_tiles fs ts2 out2 pol false)) k c) ∧
    mergedLookup
        (mergeTable (merge_tiles fsPair ["x.csv", "y.csv"] "m.csv" "first" false))
        (Cell.str "X") "read_count" ≠
      mergedLookup
        (mergeTable (merge_tiles fsPair ["y.csv", "x.csv"] "m.csv" "first" false))
        (Cell.str "X") "read_count" := by
  constructor
  · intro fs ts1 ts2 out1 out2 pol hperm hpol hok1 hok2 hbc k c
    rw [mergeTable_of_isOk fs ts1 out1 pol hok1,
      mergeTable_of_isOk fs ts2 out2 pol hok2]
    have hload : (loadTiles fs ts1).Perm (loadTiles fs ts2) := by
      unfold loadTiles
      exact (hperm.filter _).filterMap _
    have hbc2 : "barcode" ∈ concatCols (loadTiles fs ts2) := by
      rw [mem_concatCols] at hbc ⊢
      obtain ⟨d, hd, hc⟩ := hbc
      exact ⟨d, hload.mem_iff.mp hd, hc⟩
    rcases hpol with rfl | rfl
    · rw [resolveOverlap_average _ hbc, resolveOverlap_average _ hbc2]
      exact mergedLookup_groupBy_concat_perm meanCell meanCell_perm _ _ hload k c
    · rw [resolveOverlap_max _ hbc, resolveOverlap_max _ hbc2]
      exact mergedLookup_groupBy_concat_perm maxCell maxCell_perm _ _ hload k c
  · decide

theorem C6_merge_commutative_average_max_not_first_witness :
    mergedLookup
        (mergeTable (merge_tiles fsPair ["x.csv", "y.csv"] "m.csv" "average" false))
        (Cell.str "X") "read_count" =
      mergedLookup
        (mergeTable (merge_tiles fsPair ["y.csv", "x.csv"] "m.csv" "average" false))
        (Cell.str "X") "read_count" :=
  C6_merge_commutative_average_max_not_first.1 fsPair ["x.csv", "y.csv"]
    ["y.csv", "x.csv"] "m.csv" "m.csv" "average" (by decide) (Or.inl rfl)
    (by decide) (by decide) (by decide) (Cell.str "X") "read_count"

/-- C5: merging two single-row tiles that carry the same barcode under the
`average` policy yields, for every attribute holding numeric-or-missing
values, the arithmetic mean over the occurrences in which the attribute is
present (values missing in one occurrence are excluded from the mean, not
treated as zero). -/
theorem C5_average_pair_mean (t1 t2 : DataFrame) (r1 r2 : List Cell)
    (b out c : String)
    (h1 : t1.rows = [r1]) (h2 : t2.rows = [r2])
    (hb1 : rowFun t1.cols r1 "barcode" = Cell.str b)
    (hb2 : rowFun t2.cols r2 "barcode" = Cell.str b)
    (hn1 : isNumOrNa (rowFun t1.cols r1 c) = true)
    (hn2 : isNumOrNa (rowFun t2.cols r2 c) = true)
    (hc : c ≠ "barcode") :
    mergedLookup
      (mergeTable (merge_tiles [("t1.csv", t1), ("t2.csv", t2)]
        ["t1.csv", "t2.csv"] out "average" false))
      (Cell.str b) c =
    specPairAverage (rowFun t1.cols r1 c) (rowFun t2.cols r2 c) := by
  have hmt : mergeTable (merge_tiles [("t1.csv", t1), ("t2.csv", t2)]
      ["t1.csv", "t2.csv"] out "average" false) =
      resolveOverlap "average" (concatDFs [t1, t2]) := rfl
  have hm1 : "barcode" ∈ t1.cols := by
    by_contra hn
    rw [rowFun_eq_na_of_not_mem _ _ _ hn] at hb1
    exact Cell.noConfusion hb1
  have hbcU : "barcode" ∈ concatCols [t1, t2] :=
    (mem_concatCols _ _).mpr ⟨t1, by simp, hm1⟩
  rw [hmt, resolveOverlap_average _ hbcU, mergedLookup_groupBy]
  have hbv : barcodeVals (concatDFs [t1, t2]) = [Cell.str b, Cell.str b] := by
    rw [barcodeVals_concat]
    simp [h1, h2, hb1, hb2]
  have hkmem : Cell.str b ∈ groupKeys (concatDFs [t1, t2]) := by
    rw [mem_groupKeys, hbv]
    simp
  rw [if_pos hkmem, if_neg hc]
  by_cases hco : c ∈ otherCols (concatDFs [t1, t2])
  · rw [if_pos hco]
    have hgv : groupVals (concatDFs [t1, t2]) (Cell.str b) c =
        [rowFun t1.cols r1 c, rowFun t2.cols r2 c] := by
      rw [groupVals_concat]
      simp [h1, h2, hb1, hb2]
    rw [hgv]
    rcases hv1 : rowFun t1.cols r1 c with _ | q1 | s1 <;>
      rcases hv2 : rowFun t2.cols r2 c with _ | q2 | s2
    · rfl
    · simp [meanCell, numsOf, specPairAverage]
    · rw [hv2] at hn2
      exact absurd hn2 (by simp [isNumOrNa])
    · simp [meanCell, numsOf, specPairAverage]
    · simp only [meanCell, numsOf, List.filterMap, specPairAverage]
      norm_num
    · rw [hv2] at hn2
      exact absurd hn2 (by simp [isNumOrNa])
    · rw [hv1] at hn1
      exact absurd hn1 (by simp [isNumOrNa])
    · rw [hv1] at hn1
      exact absurd hn1 (by simp [isNumOrNa])
    · rw [hv1] at hn1
      exact absurd hn1 (by simp [isNumOrNa])
  · rw [if_neg hco]
    have hcl : c ∉ concatCols [t1, t2] := by
      intro hmem
      exact hco ((mem_otherCols _ _).mpr ⟨by rw [concatDFs_cols]; exact hmem, hc⟩)
    rw [rowFun_eq_na_of_not_mem t1.cols r1 c
        (fun h => hcl (cols_subset_concatCols _ t1 (by simp) h)),
      rowFun_eq_na_of_not_mem t2.cols r2 c
        (fun h => hcl (cols_subset_concatCols _ t2 (by simp) h))]
    rfl

theorem C5_average_pair_mean_witness :
    mergedLookup
      (mergeTable (merge_tiles [("t1.csv", tileX100), ("t2.csv", tileX300)]
        ["t1.csv", "t2.csv"] "m.csv" "average" false))
      (Cell.str "X") "read_count" = Cell.num 200 := by
  have h := C5_average_pair_mean tileX100 tileX300
    [Cell.str "X", Cell.num 100] [Cell.str "X", Cell.num 300]
    "X" "m.csv" "read_count" rfl rfl rfl rfl rfl rfl (by decide)
  rw [h]
  show specPairAverage (Cell.num 100) (Cell.num 300) = Cell.num 200
  simp only [specPairAverage]
  norm_num

/-- C1 (code bug): on the documented three-tile scenario (tiles of 10, 10
and 5 barcodes, 3 of them shared between tiles 1 and 2) under the
`average` policy, the code reports `total_barcodes = 22` as the claim
says, but computes the overlap statistics from the first two loaded tiles
only: `overlapping_barcodes = 10 + 10 - 22 = -2` and
`overlap_percent = -100/11 ≈ -9.09`, instead of the claimed
`Σ tile sizes - total = 3` and `≈ 13.6%`. -/
theorem C1_overlap_stats_first_two_tiles_only :
    (((merge_tiles fsC1 ["t1.csv", "t2.csv", "t3.csv"] "m.csv" "average" false).2.map
        (fun r => (r.total_barcodes, r.overlapping_barcodes))).toOption
      = some (22, -2)) ∧
    (((merge_tiles fsC1 ["t1.csv", "t2.csv", "t3.csv"] "m.csv" "average" false).2.map
        (fun r => r.overlap_percent)).toOption
      = some (-100/11)) := by
  constructor
  · decide
  · have htot : (resolveOverlap "average"
        (concatDFs [tile1C1, tile2C1, tile3C1])).rows.length = 22 := by
      decide
    show some (overlapPercent (loadTiles fsC1 ["t1.csv", "t2.csv", "t3.csv"])
        (resolveOverlap "average" (concatDFs
          (loadTiles fsC1 ["t1.csv", "t2.csv", "t3.csv"]))).rows.length)
      = some (-100/11)
    have hl : loadTiles fsC1 ["t1.csv", "t2.csv", "t3.csv"] =
        [tile1C1, tile2C1, tile3C1] := rfl
    rw [hl, htot]
    have hp : overlapPercent [tile1C1, tile2C1, tile3C1] 22 = -100/11 := by
      norm_num [overlapPercent, tile1C1, tile2C1]
    rw [hp]

/-- C2 (code bug): segmentation without pre-existing region labels is not
deterministic.  On the same one-record input with the same explicit region
list, two runs that differ only in the state of the global RNG
(`np.random.choice`) assign different region labels and produce different
region outputs. -/
theorem C2_segmentation_rng_dependent :
    (((split_by_region [("in.csv", dfTiny)] "in.csv" "out" (some ["r1", "r2"])
        none (fun _ => 0) (fun _ => 0) false).2).map
          (fun r => r.regions.map (fun i => i.name))).toOption ≠
    (((split_by_region [("in.csv", dfTiny)] "in.csv" "out" (some ["r1", "r2"])
        none (fun _ => 1) (fun _ => 0) false).2).map
          (fun r => r.regions.map (fun i => i.name))).toOption := by
  decide

-- ===========================================================================
-- Counting machinery for segmentation (C8)
-- ===========================================================================

theorem sum_map_add_nat {α : Type} (l : List α) (f g : α → ℕ) :
    (l.map (fun x => f x + g x)).sum = (l.map f).sum + (l.map g).sum := by
  induction l with
  | nil => rfl
  | cons a l ih =>
    simp only [List.map_cons, List.sum_cons, ih]
    omega

theorem sum_swap_nat (U vals : List Cell) (g : Cell → Cell → ℕ) :
    (U.map (fun v => (vals.map (fun x => g v x)).sum)).sum =
      (vals.map (fun x => (U.map (fun v => g v x)).sum)).sum := by
  induction U with
  | nil => simp
  | cons v U ih =>
    simp only [List.map_cons, List.sum_cons, ih, ← sum_map_add_nat]

theorem countP_eq_sum_ind (l : List Cell) (p : Cell → Bool) :
    l.countP p = (l.map (fun x => if p x then 1 else 0)).sum := by
  induction l with
  | nil => rfl
  | cons a l ih =>
    rw [List.countP_cons, List.map_cons, List.sum_cons, ih]
    by_cases h : p a
    · simp [h]
      omega
    · simp [h]

theorem cellEqPandas_self (x : Cell) (h : x ≠ Cell.na) :
    cellEqPandas x x = true := by
  cases x with
  | na => exact absurd rfl h
  | num q => simp [cellEqPandas]
  | str s => simp [cellEqPandas]

theorem cellEqPandas_ne (x v : Cell) (h : x ≠ v) :
    cellEqPandas x v = false := by
  cases x <;> cases v <;> simp_all [cellEqPandas]

theorem cellEqPandas_na_left (v : Cell) : cellEqPandas Cell.na v = false := by
  cases v <;> rfl

theorem sum_eqP_na (U : List Cell) :
    (U.map (fun v => if cellEqPandas Cell.na v then 1 else 0)).sum = 0 := by
  induction U with
  | nil => rfl
  | cons v U ih => simp [cellEqPandas_na_left, ih]

theorem sum_eqP_one (U : List Cell) (hU : U.Nodup) (x : Cell) (hx : x ∈ U)
    (hna : x ≠ Cell.na) :
    (U.map (fun v => if cellEqPandas x v then 1 else 0)).sum = 1 := by
  induction U with
  | nil => exact absurd hx (List.not_mem_nil x)
  | cons v U ih =>
    rw [List.nodup_cons] at hU
    rcases List.mem_cons.mp hx with rfl | hx2
    · have hz : (U.map (fun v => if cellEqPandas x v then 1 else 0)).sum = 0 := by
        have : ∀ v' ∈ U, (if cellEqPandas x v' then 1 else 0) = 0 := by
          intro v' hv'
          rw [cellEqPandas_ne x v' (fun he => hU.1 (he ▸ hv'))]
          rfl
        rw [List.map_congr_left this]
        simp
      simp [cellEqPandas_self x hna, hz]
    · have hxv : x ≠ v := fun he => (he ▸ hU.1) hx2
      simp [cellEqPandas_ne x v hxv, ih hU.2 hx2]

theorem uniqAux_nodup (l : List Cell) (seen : List Cell) :
    (uniqAux seen l).Nodup := by
  induction l generalizing seen with
  | nil => exact List.nodup_nil
  | cons a l ih =>
    rw [uniqAux]
    by_cases h : a ∈ seen
    · rw [if_pos h]
      exact ih seen
    · rw [if_neg h]
      rw [List.nodup_cons]
      refine ⟨fun hmem => ?_, ih (a :: seen)⟩
      exact ((uniqAux_mem l (a :: seen) a).mp hmem).2 (List.mem_cons_self a seen)

theorem uniqFirst_nodup (l : List Cell) : (uniqFirst l).Nodup :=
  uniqAux_nodup l []

/-- Summing, over the distinct region values, the number of records whose
region value pandas-equals that value, counts exactly the records with a
non-`NaN` region value (a `NaN` region never equals anything, its own
group included). -/
theorem sum_counts_uniqFirst (vals : List Cell) :
    ((uniqFirst vals).map (fun v => vals.countP (fun x => cellEqPandas x v))).sum
      = (vals.filter (fun x => decide (x ≠ Cell.na))).length := by
  have h1 : ((uniqFirst vals).map
      (fun v => vals.countP (fun x => cellEqPandas x v))).sum =
      ((uniqFirst vals).map
        (fun v => (vals.map (fun x => if cellEqPandas x v then 1 else 0)).sum)).sum := by
    congr 1
    exact List.map_congr_left (fun v _ => countP_eq_sum_ind vals _)
  rw [h1, sum_swap_nat]
  have h2 : ∀ x ∈ vals,
      ((uniqFirst vals).map (fun v => if cellEqPandas x v then 1 else 0)).sum =
        (if decide (x ≠ Cell.na) then 1 else 0) := by
    intro x hx
    by_cases hna : x = Cell.na
    · subst hna
      rw [sum_eqP_na]
      simp
    · rw [sum_eqP_one (uniqFirst vals) (uniqFirst_nodup vals) x
        ((uniqFirst_mem vals x).mpr hx) hna]
      simp [hna]
  rw [List.map_congr_left h2, ← countP_eq_sum_ind, List.countP_eq_length_filter]

theorem cutAssign_length (xs : List Cell) (k : Nat) (labels : List String)
    (labs : List Cell) (h : cutAssign xs k labels = Except.ok labs) :
    labs.length = xs.length := by
  simp only [cutAssign] at h
  split at h
  · exact absurd h (by simp)
  · simp only [Except.ok.injEq] at h
    rw [← h]
    simp

theorem assignRegions_length (df : DataFrame) (regions : Option (List String))
    (rand : Nat → Nat) (randu : Nat → ℚ) (df2 : DataFrame)
    (h : assignRegions df regions rand randu = Except.ok df2) :
    df2.rows.length = df.rows.length := by
  simp only [assignRegions] at h
  by_cases h1 : "region" ∈ df.cols
  · rw [if_pos h1] at h
    simp only [Except.ok.injEq] at h
    rw [← h]
  · rw [if_neg h1] at h
    by_cases h2 : (regions.getD []).isEmpty
    · rw [if_neg (by simp [h2])] at h
      split at h
      · exact absurd h (by simp)
      · rename_i labs heq
        simp only [Except.ok.injEq] at h
        rw [← h]
        simp only [List.length_zipWith, cutAssign_length _ _ _ _ heq]
        by_cases h3 : "x_coord" ∈ df.cols
        · rw [if_pos h3]
          simp
        · rw [if_neg h3]
          simp
    · rw [if_pos (by simpa using h2)] at h
      simp only [Except.ok.injEq] at h
      rw [← h]
      simp

theorem split_ok_core (fs : List (String × DataFrame))
    (input output_dir : String) (regions : Option (List String))
    (cf : Option String) (rand : Nat → Nat) (randu : Nat → ℚ)
    (df : DataFrame) (res : SplitResult)
    (hfile : lookupFile fs input = some df)
    (h : (split_by_region fs input output_dir regions cf rand randu false).2
      = Except.ok res) :
    (splitCore df output_dir regions rand randu).2 = Except.ok res := by
  unfold split_by_region at h
  simp only [hfile, Option.isSome_some, readFile, Option.getD_some] at h
  split_ifs at h <;> simp_all

theorem splitCore_regions (df : DataFrame) (output_dir : String)
    (regions : Option (List String)) (rand : Nat → Nat) (randu : Nat → ℚ)
    (df2 : DataFrame) (res : SplitResult)
    (hassign : assignRegions df regions rand randu = Except.ok df2)
    (h : (splitCore df output_dir regions rand randu).2 = Except.ok res) :
    res.regions = (uniqFirst (df2.rows.map
      (fun r => rowFun df2.cols r "region"))).map
      (fun v => RegionInfo.mk (cellName v)
        (output_dir ++ "/" ++ cellName v ++ ".csv")
        (df2.rows.filter
          (fun r => cellEqPandas
            (rowFun df2.cols r "region") v)).length) := by
  simp only [splitCore, hassign] at h
  split at h
  · simp at h
  · simp only [Except.ok.injEq] at h
    rw [← h]

theorem length_filter_map_eq {α β : Type} (l : List α) (f : α → β)
    (p : β → Bool) :
    ((l.map f).filter p).length = (l.filter (fun x => p (f x))).length := by
  rw [List.filter_map, List.length_map]
  rfl

/-- C8 (amended): when region assignment succeeds (`assignRegions` returns a
labelled table), every record whose region label is non-missing lands in
exactly one region output, so the per-region barcode counts sum to the
number of records with a non-`NaN` region label; when no label is missing
this equals the size of the input table.  (A record with a `NaN` label —
e.g. a `NaN` pre-label, or a `NaN` `x_coord` among numeric ones under grid
binning — is silently dropped from every region file, see the
counterexample; a column with no numeric value at all instead makes
`pd.cut` raise, so the whole operation errors out.) -/
theorem C8_region_counts_sum (fs : List (String × DataFrame))
    (input output_dir : String) (regions : Option (List String))
    (cf : Option String) (rand : Nat → Nat) (randu : Nat → ℚ)
    (df df2 : DataFrame)
    (hfile : lookupFile fs input = some df)
    (hassign : assignRegions df regions rand randu = Except.ok df2)
    (hok : ((split_by_region fs input output_dir regions cf rand randu
      false).2).isOk = true) :
    ((((split_by_region fs input output_dir regions cf rand randu false).2).map
        (fun r => (r.regions.map (fun i => i.barcode_count)).sum)).toOption =
      some (df2.rows.filter
        (fun r => decide (rowFun df2.cols r "region" ≠ Cell.na))).length) ∧
    ((∀ r ∈ df2.rows, rowFun df2.cols r "region" ≠ Cell.na) →
      (((split_by_region fs input output_dir regions cf rand randu false).2).map
          (fun r => (r.regions.map (fun i => i.barcode_count)).sum)).toOption =
        some df.rows.length) := by
  cases hres : (split_by_region fs input output_dir regions cf rand randu false).2 with
  | error e =>
    rw [hres] at hok
    exact absurd hok (by simp [Except.isOk, Except.toBool])
  | ok res =>
    have hcore := split_ok_core fs input output_dir regions cf rand randu df res
      hfile hres
    have hreg := splitCore_regions df output_dir regions rand randu df2 res
      hassign hcore
    have hsum : (res.regions.map (fun i => i.barcode_count)).sum =
        (df2.rows.filter
          (fun r => decide (rowFun df2.cols r "region" ≠ Cell.na))).length := by
      rw [hreg, List.map_map]
      have hcomp : ((fun i => RegionInfo.barcode_count i) ∘
          (fun v => RegionInfo.mk (cellName v)
            (output_dir ++ "/" ++ cellName v ++ ".csv")
            (df2.rows.filter
              (fun r => cellEqPandas
                (rowFun df2.cols r "region") v)).length)) =
          fun v => (df2.rows.filter
            (fun r => cellEqPandas
              (rowFun df2.cols r "region") v)).length := rfl
      rw [hcomp]
      have hcongr : ∀ v ∈ uniqFirst (df2.rows.map
          (fun r => rowFun df2.cols r "region")),
          (df2.rows.filter
            (fun r => cellEqPandas
              (rowFun df2.cols r "region") v)).length =
          (df2.rows.map
            (fun r => rowFun df2.cols r "region")).countP
            (fun x => cellEqPandas x v) := by
        intro v _
        rw [List.countP_eq_length_filter, length_filter_map_eq]
      rw [List.map_congr_left hcongr, sum_counts_uniqFirst, length_filter_map_eq]
    constructor
    · simp only [Except.map, Except.toOption, hsum]
    · intro hall
      simp only [Except.map, Except.toOption, hsum]
      have hfe : df2.rows.filter
          (fun r => decide (rowFun df2.cols r "region" ≠ Cell.na)) =
          df2.rows :=
        List.filter_eq_self.mpr (fun r hr => decide_eq_true (hall r hr))
      rw [hfe, assignRegions_length df regions rand randu df2 hassign]

theorem C8_region_counts_sum_witness :
    (((split_by_region [("in.csv", dfPreReg)] "in.csv" "out" none none
        (fun _ => 0) (fun _ => 0) false).2).map
        (fun r => (r.regions.map (fun i => i.barcode_count)).sum)).toOption
      = some dfPreReg.rows.length :=
  (C8_region_counts_sum [("in.csv", dfPreReg)] "in.csv" "out" none none
    (fun _ => 0) (fun _ => 0) dfPreReg dfPreReg rfl rfl (by decide)).2 (by decide)

/-- C8 counterexample: on a two-record table whose `region` column is
pre-labelled `"t"` for the first record and `NaN` for the second, the
split succeeds but the `NaN`-labelled record appears in no region output
(`NaN == NaN` is false in pandas), so the region counts sum to 1 while
the input has 2 records. -/
theorem C8_nan_region_record_dropped :
    ((((split_by_region [("in.csv", dfNanReg)] "in.csv" "out" none none
        (fun _ => 0) (fun _ => 0) false).2).map
          (fun r => (r.regions.map (fun i => i.barcode_count)).sum)).toOption
      = some 1) ∧ dfNanReg.rows.length = 2 :=
  ⟨by decide, rfl⟩

theorem split_all_nan_xcoord_errors :
    (split_by_region [("in.csv", dfNanX)] "in.csv" "out" none none
      (fun _ => 0) (fun _ => 0) false).2 = Except.error MCPError.valueError :=
  rfl

-- ===========================================================================
-- Quality-filter lemmas (C3, C7, C9)
-- ===========================================================================

theorem filterOn_ok (df : DataFrame) (c : String) (p : Cell → Bool)
    (d : DataFrame) (h : filterOn df c p = Except.ok d) :
    c ∈ df.cols ∧
      d = ⟨df.cols, df.rows.filter (fun r => p (rowFun df.cols r c))⟩ := by
  unfold filterOn at h
  split_ifs at h with hm
  · simp only [Except.ok.injEq] at h
    exact ⟨hm, h.symm⟩

theorem filterOn_self (df : DataFrame) (c : String) (p : Cell → Bool)
    (hmem : c ∈ df.cols)
    (hall : ∀ r ∈ df.rows, p (rowFun df.cols r c) = true) :
    filterOn df c p = Except.ok df := by
  unfold filterOn
  rw [if_pos hmem, List.filter_eq_self.mpr hall]

theorem filterCore_ok_shape (df d : DataFrame) (mr mg : ℤ) (mt : ℚ)
    (h : filterCore df mr mg mt = Except.ok d) :
    ("n_reads" ∈ df.cols ∧ "n_genes" ∈ df.cols ∧ "mt_percent" ∈ df.cols) ∧
      d.cols = df.cols ∧
      d.rows = ((df.rows.filter
          (fun r => cellGe (rowFun df.cols r "n_reads") (mr : ℚ))).filter
          (fun r => cellGe (rowFun df.cols r "n_genes") (mg : ℚ))).filter
          (fun r => cellLe (rowFun df.cols r "mt_percent") mt) := by
  unfold filterCore at h
  split at h
  · exact absurd h (by simp)
  · rename_i d1 heq1
    split at h
    · exact absurd h (by simp)
    · rename_i d2 heq2
      obtain ⟨hm1, hd1⟩ := filterOn_ok _ _ _ _ heq1
      rw [hd1] at heq2
      obtain ⟨hm2, hd2⟩ := filterOn_ok _ _ _ _ heq2
      rw [hd2] at h
      obtain ⟨hm3, hd3⟩ := filterOn_ok _ _ _ _ h
      exact ⟨⟨hm1, hm2, hm3⟩, by rw [hd3], by rw [hd3]⟩

/-- C7: the quality filter is idempotent: if filtering a table succeeds
and produces `d`, filtering `d` again with the same thresholds succeeds
and returns `d` unchanged. -/
theorem C7_filter_idempotent (df d : DataFrame) (mr mg : ℤ) (mt : ℚ)
    (h : filterCore df mr mg mt = Except.ok d) :
    filterCore d mr mg mt = Except.ok d := by
  obtain ⟨⟨hm1, hm2, hm3⟩, hcols, hrows⟩ := filterCore_ok_shape df d mr mg mt h
  have hmem1 : "n_reads" ∈ d.cols := by rw [hcols]; exact hm1
  have hmem2 : "n_genes" ∈ d.cols := by rw [hcols]; exact hm2
  have hmem3 : "mt_percent" ∈ d.cols := by rw [hcols]; exact hm3
  have p1all : ∀ r ∈ d.rows, cellGe (rowFun d.cols r "n_reads") (mr : ℚ) = true := by
    intro r hr
    rw [hcols]
    rw [hrows] at hr
    exact (List.mem_filter.mp
      (List.mem_of_mem_filter (List.mem_of_mem_filter hr))).2
  have p2all : ∀ r ∈ d.rows, cellGe (rowFun d.cols r "n_genes") (mg : ℚ) = true := by
    intro r hr
    rw [hcols]
    rw [hrows] at hr
    exact (List.mem_filter.mp (List.mem_of_mem_filter hr)).2
  have p3all : ∀ r ∈ d.rows, cellLe (rowFun d.cols r "mt_percent") mt = true := by
    intro r hr
    rw [hcols]
    rw [hrows] at hr
    exact (List.mem_filter.mp hr).2
  unfold filterCore
  simp only [filterOn_self d "n_reads" (fun x => cellGe x (mr : ℚ)) hmem1 p1all,
    filterOn_self d "n_genes" (fun x => cellGe x (mg : ℚ)) hmem2 p2all,
    filterOn_self d "mt_percent" (fun x => cellLe x mt) hmem3 p3all]

theorem C7_filter_idempotent_witness :
    filterCore dfQC 1000 200 20 =
      Except.ok ⟨["barcode", "n_reads", "n_genes", "mt_percent"],
        [[Cell.str "A", Cell.num 1500, Cell.num 500, Cell.num 5]]⟩ ∧
    filterCore ⟨["barcode", "n_reads", "n_genes", "mt_percent"],
        [[Cell.str "A", Cell.num 1500, Cell.num 500, Cell.num 5]]⟩ 1000 200 20 =
      Except.ok ⟨["barcode", "n_reads", "n_genes", "mt_percent"],
        [[Cell.str "A", Cell.num 1500, Cell.num 500, Cell.num 5]]⟩ :=
  ⟨rfl, C7_filter_idempotent dfQC _ 1000 200 20 rfl⟩

theorem filterCore_missing (df : DataFrame) (mr mg : ℤ) (mt : ℚ)
    (hmiss : "n_reads" ∉ df.cols ∨ "n_genes" ∉ df.cols ∨ "mt_percent" ∉ df.cols) :
    filterCore df mr mg mt = Except.error MCPError.keyError := by
  rcases hmiss with hm | hm | hm
  · simp [filterCore, filterOn, hm]
  · by_cases h1 : "n_reads" ∈ df.cols
    · simp [filterCore, filterOn, h1, hm]
    · simp [filterCore, filterOn, h1]
  · by_cases h1 : "n_reads" ∈ df.cols
    · by_cases h2 : "n_genes" ∈ df.cols
      · simp [filterCore, filterOn, h1, h2, hm]
      · simp [filterCore, filterOn, h1, h2]
    · simp [filterCore, filterOn, h1]

/-- C3: requesting the quality filter on a table whose schema lacks any of
`n_reads`, `n_genes` or `mt_percent` fails with the schema error
(`data[<bool>]` raising `KeyError`, wrapped into the operation's error);
a missing column is never skipped and never lets rows pass. -/
theorem C3_missing_quality_column_errors (fs : List (String × DataFrame))
    (input output_dir : String) (mr mg : ℤ) (mt : ℚ) (df : DataFrame)
    (hfile : lookupFile fs input = some df)
    (hparams : ¬ (mr < 0 ∨ mg < 0 ∨ mt < 0 ∨ 100 < mt))
    (hcsv : strEndsWith input ".csv" = true)
    (hmiss : "n_reads" ∉ df.cols ∨ "n_genes" ∉ df.cols ∨ "mt_percent" ∉ df.cols) :
    (filter_quality fs input output_dir mr mg mt false).2
      = Except.error MCPError.keyError := by
  unfold filter_quality
  simp only [hfile, Option.isSome_some, readFile, Option.getD_some]
  rw [if_neg (by simp), if_neg hparams, if_neg (by simp),
    if_neg (by simp [hcsv]), filterCore_missing df mr mg mt hmiss]

theorem C3_missing_quality_column_errors_witness :
    (filter_quality [("in.csv", dfNoReads)] "in.csv" "out" 1000 200 20 false).2
      = Except.error MCPError.keyError :=
  C3_missing_quality_column_errors [("in.csv", dfNoReads)] "in.csv" "out"
    1000 200 20 dfNoReads rfl (by decide) (by decide) (by decide)

theorem filter_ok_shape (fs : List (String × DataFrame))
    (input output_dir : String) (mr mg : ℤ) (mt : ℚ) (df : DataFrame)
    (res : FilterResult)
    (hfile : lookupFile fs input = some df)
    (h : (filter_quality fs input output_dir mr mg mt false).2 = Except.ok res) :
    ∃ d, filterCore df mr mg mt = Except.ok d ∧
      res.barcodes_before = df.rows.length ∧
      res.barcodes_after = d.rows.length ∧
      res.filtering_rate = filteringRate df.rows.length d.rows.length := by
  unfold filter_quality at h
  simp only [hfile, Option.isSome_some, readFile, Option.getD_some] at h
  rw [if_neg (show ¬ (true = false) by simp)] at h
  by_cases hp : mr < 0 ∨ mg < 0 ∨ mt < 0 ∨ 100 < mt
  · rw [if_pos hp] at h
    exact absurd h (by simp)
  · rw [if_neg hp, if_neg (show ¬ (false = true) by simp)] at h
    by_cases hc : strEndsWith input ".csv" = true
    · rw [if_neg (by simp [hc])] at h
      split at h
      · exact absurd h (by simp)
      · rename_i d heq
        simp only [Except.ok.injEq] at h
        exact ⟨d, heq, by rw [← h], by rw [← h], by rw [← h]⟩
    · rw [if_pos (by simpa using hc)] at h
      exact absurd h (by simp)

/-- C9: for every completed (non-dry) filter run, the reported retention
rate (`filtering_rate`) lies in `[0, 1]`, and it is `0` when the input
table is empty; the guard `if barcodes_before > 0` makes the quotient
total, never a division fault. -/
theorem C9_retention_rate_bounds (fs : List (String × DataFrame))
    (input output_dir : String) (mr mg : ℤ) (mt : ℚ) (df : DataFrame)
    (hfile : lookupFile fs input = some df)
    (hok : ((filter_quality fs input output_dir mr mg mt false).2).isOk = true) :
    0 ≤ (((filter_quality fs input output_dir mr mg mt false).2).map
        (fun r => r.filtering_rate)).toOption.getD 0 ∧
    (((filter_quality fs input output_dir mr mg mt false).2).map
        (fun r => r.filtering_rate)).toOption.getD 0 ≤ 1 ∧
    (df.rows = [] →
      (((filter_quality fs input output_dir mr mg mt false).2).map
          (fun r => r.filtering_rate)).toOption.getD 0 = 0) := by
  cases hres : (filter_quality fs input output_dir mr mg mt false).2 with
  | error e =>
    rw [hres] at hok
    exact absurd hok (by simp [Except.isOk, Except.toBool])
  | ok res =>
    obtain ⟨d, hcore, hb, ha, hr⟩ :=
      filter_ok_shape fs input output_dir mr mg mt df res hfile hres
    have hlen : d.rows.length ≤ df.rows.length := by
      obtain ⟨_, _, hrows⟩ := filterCore_ok_shape df d mr mg mt hcore
      rw [hrows]
      exact le_trans (List.length_filter_le _ _)
        (le_trans (List.length_filter_le _ _) (List.length_filter_le _ _))
    simp only [Except.map, Except.toOption, Option.getD_some]
    rw [hr]
    refine ⟨?_, ?_, ?_⟩
    · unfold filteringRate
      split_ifs with hpos
      · positivity
      · exact le_refl 0
    · unfold filteringRate
      split_ifs with hpos
      · rw [div_le_one (by exact_mod_cast hpos)]
        exact_mod_cast hlen
      · exact zero_le_one
    · intro hempty
      unfold filteringRate
      rw [hempty]
      simp

theorem C9_retention_rate_bounds_witness :
    0 ≤ (((filter_quality [("in.csv", dfQC)] "in.csv" "out" 1000 200 20
        false).2).map (fun r => r.filtering_rate)).toOption.getD 0 ∧
    (((filter_quality [("in.csv", dfQC)] "in.csv" "out" 1000 200 20
        false).2).map (fun r => r.filtering_rate)).toOption.getD 0 ≤ 1 ∧
    (dfQC.rows = [] →
      (((filter_quality [("in.csv", dfQC)] "in.csv" "out" 1000 200 20
          false).2).map (fun r => r.filtering_rate)).toOption.getD 0 = 0) :=
  C9_retention_rate_bounds [("in.csv", dfQC)] "in.csv" "out" 1000 200 20 dfQC
    rfl (by decide)

-- ===========================================================================
-- Dry-run frame behaviour (C4) and non-csv tile handling (C10)
-- ===========================================================================

/-- C4 counterexample: a dry-run filter invocation still creates
directories — `_ensure_directories()` and the output-directory `mkdir`
run before the dry-run short-circuit, so "no directory is created" is
false. -/
theorem C4_dry_run_still_creates_directories :
    Effect.mkdir DATA_DIR ∈
      (filter_quality [("in.csv", dfTiny)] "in.csv" "out" 1000 200 20 true).1 := by
  decide

/-- C4 (amended): with the dry-run switch enabled, every filter, merge and
segment invocation writes no file (the effect trace holds no `writeFile`,
on every path including errors), and each operation whose preconditions
pass returns exactly the hard-coded placeholder statistics — but the data
and cache directories and the output directory are still created before
the short-circuit. -/
theorem C4_dry_run_no_files_but_dirs :
    (∀ (fs : List (String × DataFrame)) (i o : String) (mr mg : ℤ) (mt : ℚ)
      (p : String),
      Effect.writeFile p ∉ (filter_quality fs i o mr mg mt true).1) ∧
    (∀ (fs : List (String × DataFrame)) (ts : List String) (o pol : String)
      (p : String),
      Effect.writeFile p ∉ (merge_tiles fs ts o pol true).1) ∧
    (∀ (fs : List (String × DataFrame)) (i o : String)
      (regions : Option (List String)) (cf : Option String)
      (rand : Nat → Nat) (randu : Nat → ℚ) (p : String),
      Effect.writeFile p ∉ (split_by_region fs i o regions cf rand randu true).1) ∧
    (∀ (fs : List (String × DataFrame)) (i o : String) (mr mg : ℤ) (mt : ℚ)
      (df : DataFrame), lookupFile fs i = some df →
      ¬ (mr < 0 ∨ mg < 0 ∨ mt < 0 ∨ 100 < mt) →
      filter_quality fs i o mr mg mt true =
        (ensureDirEffects ++ [Effect.mkdir o],
         Except.ok (mockFilterResult (o ++ "/" ++ stemOf i ++ "_filtered.csv")))) ∧
    (∀ (fs : List (String × DataFrame)) (ts : List String) (o pol : String),
      ts ≠ [] → (pol = "average" ∨ pol = "max" ∨ pol = "first") →
      (∀ t ∈ ts, (lookupFile fs t).isSome = true) →
      merge_tiles fs ts o pol true =
        (ensureDirEffects ++ [Effect.mkdir (parentOf o)],
         Except.ok (mockMergeResult o ts.length))) ∧
    (∀ (fs : List (String × DataFrame)) (i o : String)
      (regions : Option (List String)) (cf : Option String)
      (rand : Nat → Nat) (randu : Nat → ℚ) (df : DataFrame),
      lookupFile fs i = some df →
      split_by_region fs i o regions cf rand randu true =
        (ensureDirEffects ++ [Effect.mkdir o],
         Except.ok (mockSplitResult o regions rand))) := by
  refine ⟨?_, ?_, ?_, ?_, ?_, ?_⟩
  · intro fs i o mr mg mt p
    simp only [filter_quality]
    by_cases h1 : (lookupFile fs i).isSome = false
    · rw [if_pos h1]
      simp [ensureDirEffects]
    · rw [if_neg h1]
      by_cases h2 : mr < 0 ∨ mg < 0 ∨ mt < 0 ∨ 100 < mt
      · rw [if_pos h2]
        simp [ensureDirEffects]
      · rw [if_neg h2, if_pos trivial]
        simp [ensureDirEffects]
  · intro fs ts o pol p
    simp only [merge_tiles]
    by_cases h1 : ts.isEmpty = true
    · rw [if_pos h1]
      simp [ensureDirEffects]
    · rw [if_neg h1]
      by_cases h2 : ¬ (pol = "average" ∨ pol = "max" ∨ pol = "first")
      · rw [if_pos h2]
        simp [ensureDirEffects]
      · rw [if_neg h2]
        by_cases h3 : ¬ ts.all (fun t => (lookupFile fs t).isSome) = true
        · rw [if_pos h3]
          simp [ensureDirEffects]
        · rw [if_neg h3, if_pos trivial]
          simp [ensureDirEffects]
  · intro fs i o regions cf rand randu p
    simp only [split_by_region]
    by_cases h1 : (lookupFile fs i).isSome = false
    · rw [if_pos h1]
      simp [ensureDirEffects]
    · rw [if_neg h1, if_pos trivial]
      simp [ensureDirEffects]
  · intro fs i o mr mg mt df hfile hp
    simp only [filter_quality]
    rw [if_neg (by simp [hfile]), if_neg hp, if_pos trivial]
  · intro fs ts o pol hne hpol hex
    simp only [merge_tiles]
    rw [if_neg (by simpa [List.isEmpty_iff] using hne),
      if_neg (not_not_intro hpol),
      if_neg (not_not_intro (List.all_eq_true.mpr hex)), if_pos trivial]
  · intro fs i o regions cf rand randu df hfile
    simp only [split_by_region]
    rw [if_neg (by simp [hfile]), if_pos trivial]

theorem C4_dry_run_no_files_but_dirs_witness :
    filter_quality [("in.csv", dfTiny)] "in.csv" "out" 1000 200 20 true =
      (ensureDirEffects ++ [Effect.mkdir "out"],
       Except.ok (mockFilterResult
         ("out" ++ "/" ++ stemOf "in.csv" ++ "_filtered.csv"))) ∧
    merge_tiles [("t.csv", dfTiny)] ["t.csv"] "m.csv" "average" true =
      (ensureDirEffects ++ [Effect.mkdir (parentOf "m.csv")],
       Except.ok (mockMergeResult "m.csv" 1)) ∧
    split_by_region [("in.csv", dfTiny)] "in.csv" "out" none none
        (fun _ => 0) (fun _ => 0) true =
      (ensureDirEffects ++ [Effect.mkdir "out"],
       Except.ok (mockSplitResult "out" none (fun _ => 0))) :=
  ⟨C4_dry_run_no_files_but_dirs.2.2.2.1 [("in.csv", dfTiny)] "in.csv" "out"
      1000 200 20 dfTiny rfl (by decide),
   C4_dry_run_no_files_but_dirs.2.2.2.2.1 [("t.csv", dfTiny)] ["t.csv"]
      "m.csv" "average" (by decide) (Or.inl rfl) (by decide),
   C4_dry_run_no_files_but_dirs.2.2.2.2.2 [("in.csv", dfTiny)] "in.csv" "out"
      none none (fun _ => 0) (fun _ => 0) dfTiny rfl⟩

/-- C10 counterexample: when every supplied tile file exists but none ends
in `.csv`, nothing is loaded and `pd.concat([])` raises, so the call
errors out instead of returning `tiles_merged` equal to the number of
supplied paths. -/
theorem C10_all_non_csv_is_error :
    (merge_tiles [("a.txt", dfTiny)] ["a.txt"] "m.csv" "average" false).2
      = Except.error MCPError.valueError := rfl

theorem loadTiles_ne_nil (fs : List (String × DataFrame)) (ts : List String)
    (t : String) (ht : t ∈ ts) (htc : strEndsWith t ".csv" = true)
    (hex : (lookupFile fs t).isSome = true) :
    loadTiles fs ts ≠ [] := by
  unfold loadTiles
  intro hnil
  rw [List.filterMap_eq_nil_iff] at hnil
  have hnone := hnil t (List.mem_filter.mpr ⟨ht, htc⟩)
  rw [hnone] at hex
  exact absurd hex (by simp)

theorem merge_tiles_ok_conditions (fs : List (String × DataFrame))
    (ts : List String) (o pol : String) (hne : ts ≠ [])
    (hpol : pol = "average" ∨ pol = "max" ∨ pol = "first")
    (hex : ∀ t ∈ ts, (lookupFile fs t).isSome = true)
    (hL : loadTiles fs ts ≠ []) :
    ((merge_tiles fs ts o pol false).2).isOk = true ∧
    (((merge_tiles fs ts o pol false).2).map
      (fun r => r.tiles_merged)).toOption = some ts.length := by
  simp only [merge_tiles]
  rw [if_neg (by simpa [List.isEmpty_iff] using hne),
    if_neg (not_not_intro hpol),
    if_neg (not_not_intro (List.all_eq_true.mpr hex)),
    if_neg (by simp),
    if_neg (by simpa [List.isEmpty_iff] using hL)]
  exact ⟨rfl, rfl⟩

/-- C10 (amended): provided at least one supplied tile path ends in
`.csv` (and all exist, with a valid policy), every non-`.csv` tile is
silently excluded — the merged table equals the one obtained from the
`.csv` tiles alone, with no error for the excluded tiles — while the
returned `tiles_merged` equals the number of supplied paths, counting the
excluded tiles. -/
theorem C10_non_csv_tiles_silently_excluded (fs : List (String × DataFrame))
    (ts : List String) (o pol : String)
    (hpol : pol = "average" ∨ pol = "max" ∨ pol = "first")
    (hex : ∀ t ∈ ts, (lookupFile fs t).isSome = true)
    (hcsv : ∃ t ∈ ts, strEndsWith t ".csv" = true) :
    ((merge_tiles fs ts o pol false).2).isOk = true ∧
    (((merge_tiles fs ts o pol false).2).map
      (fun r => r.tiles_merged)).toOption = some ts.length ∧
    mergeTable (merge_tiles fs ts o pol false) =
      mergeTable (merge_tiles fs (ts.filter (fun t => strEndsWith t ".csv"))
        o pol false) := by
  obtain ⟨t, ht, htc⟩ := hcsv
  have hne : ts ≠ [] := by
    rintro rfl
    exact (List.not_mem_nil t) ht
  have hL : loadTiles fs ts ≠ [] := loadTiles_ne_nil fs ts t ht htc (hex t ht)
  have hload2 : loadTiles fs (ts.filter (fun t => strEndsWith t ".csv")) =
      loadTiles fs ts := by
    unfold loadTiles
    rw [List.filter_filter]
    congr 1
    exact List.filter_congr (fun a _ => Bool.and_self _)
  have hmain := merge_tiles_ok_conditions fs ts o pol hne hpol hex hL
  have hne2 : ts.filter (fun t => strEndsWith t ".csv") ≠ [] := by
    intro hnil
    have : t ∈ ts.filter (fun t => strEndsWith t ".csv") :=
      List.mem_filter.mpr ⟨ht, htc⟩
    rw [hnil] at this
    exact (List.not_mem_nil t) this
  have hex2 : ∀ u ∈ ts.filter (fun t => strEndsWith t ".csv"),
      (lookupFile fs u).isSome = true :=
    fun u hu => hex u (List.mem_of_mem_filter hu)
  have hL2 : loadTiles fs (ts.filter (fun t => strEndsWith t ".csv")) ≠ [] := by
    rw [hload2]
    exact hL
  have hsec := merge_tiles_ok_conditions fs
    (ts.filter (fun t => strEndsWith t ".csv")) o pol hne2 hpol hex2 hL2
  refine ⟨hmain.1, hmain.2, ?_⟩
  rw [mergeTable_of_isOk fs ts o pol hmain.1,
    mergeTable_of_isOk fs (ts.filter (fun t => strEndsWith t ".csv")) o pol
      hsec.1, hload2]

theorem C10_non_csv_tiles_silently_excluded_witness :
    ((merge_tiles [("a.txt", dfTiny), ("b.csv", tileX100)] ["a.txt", "b.csv"]
      "m.csv" "average" false).2).isOk = true ∧
    (((merge_tiles [("a.txt", dfTiny), ("b.csv", tileX100)] ["a.txt", "b.csv"]
      "m.csv" "average" false).2).map
        (fun r => r.tiles_merged)).toOption = some 2 ∧
    mergeTable (merge_tiles [("a.txt", dfTiny), ("b.csv", tileX100)]
        ["a.txt", "b.csv"] "m.csv" "average" false) =
      mergeTable (merge_tiles [("a.txt", dfTiny), ("b.csv", tileX100)]
        (["a.txt", "b.csv"].filter (fun t => strEndsWith t ".csv"))
        "m.csv" "average" false) :=
  C10_non_csv_tiles_silently_excluded [("a.txt", dfTiny), ("b.csv", tileX100)]
    ["a.txt", "b.csv"] "m.csv" "average" (Or.inl rfl) (by decide)
    ⟨"b.csv", by decide, by decide⟩
